import Mathlib

/-!
Shallow embedding of the interaction client of this repository:

* `src/unnamed/part_000` — `InteractionClient` with `handle` (the dispatcher
  state machine, its 250 ms timer race and the `syncHandle` single-shot reply),
  `middleware` (the signed webhook transport) and `handleFromGateway`.
* `src/src/structures/CommandInteraction.js` — the recursive option-tree
  resolver `map`, the constructor's `data.data.options.map(map)`, and
  `CommandInteraction.reply` with its asynchronous followup fallback.

JavaScript effects become explicit data: promise resolution is a set-once
`Option` field, the cooperative interleaving of the timer callback and of the
handler's replies is a list of scheduler events, HTTP calls are accumulated in
lists, and a thrown `TypeError` (a property access on `undefined`) is an
`Except.error`. External collaborators that are not under `src/` (the entity
caches, the entity constructors, libsodium, the JSON parser) are modelled from
the spec, each marked `Modelled from the spec:` on its declaration.
-/

namespace DJS

/-- Wire code of `InteractionType.PING` (from `util/Constants`, not under
`src/`; only distinctness of the codes matters to the dispatcher's switch). -/
def InteractionType_PING : Nat := 1

/-- Wire code of `InteractionType.APPLICATION_COMMAND`. -/
def InteractionType_APPLICATION_COMMAND : Nat := 2

/-- Wire codes of `ApplicationCommandOptionType` (from `util/Constants`, not
under `src/`): the numeric codes carried by raw option payloads, switched on
by `map` in `CommandInteraction`. -/
def OptType_SUB_COMMAND : Nat := 1

/-- Wire code of the subcommand-group option kind. -/
def OptType_SUB_COMMAND_GROUP : Nat := 2

/-- Wire code of the string option kind. -/
def OptType_STRING : Nat := 3

/-- Wire code of the integer option kind. -/
def OptType_INTEGER : Nat := 4

/-- Wire code of the boolean option kind. -/
def OptType_BOOLEAN : Nat := 5

/-- Wire code of the user-reference option kind. -/
def OptType_USER : Nat := 6

/-- Wire code of the channel-reference option kind. -/
def OptType_CHANNEL : Nat := 7

/-- Wire code of the role-reference option kind. -/
def OptType_ROLE : Nat := 8

/-- A JSON scalar as carried in an option's `value` field. -/
inductive JValue : Type where
  | str (s : String)
  | int (n : Int)
  | bool (b : Bool)
deriving DecidableEq, Repr

/-- Raw user payload, as found in `data.data.resolved.users`. -/
structure RawUser : Type where
  id : String
  username : String
deriving DecidableEq, Repr

/-- Raw member payload, as found in `data.data.resolved.members`; its `user`
field is optional because the gateway omits it (the `map` USER case writes it:
`rawMember.user = rawUser`). -/
structure RawMember : Type where
  user : Option RawUser
  nick : Option String
deriving DecidableEq, Repr

/-- Raw channel payload, as found in `data.data.resolved.channels`. -/
structure RawChannel : Type where
  id : String
  chanType : Nat
deriving DecidableEq, Repr

/-- Raw role payload, as found in `data.data.resolved.roles`. -/
structure RawRole : Type where
  id : String
  roleName : String
deriving DecidableEq, Repr

/-- The interaction's resolved-entities tables (`data.data.resolved`): JS
objects keyed by the reference option's `value`, modelled as association
lists. -/
structure ResolvedTables : Type where
  users : List (JValue × RawUser)
  members : List (JValue × RawMember)
  channels : List (JValue × RawChannel)
  roles : List (JValue × RawRole)
deriving DecidableEq, Repr

/-- JS property lookup `table[key]`: `none` models `undefined`. -/
def lookupTable {α : Type} (t : List (JValue × α)) (k : JValue) : Option α :=
  (t.find? fun p => decide (p.1 = k)).map (fun p => p.2)

/-- A resolved user entity. -/
structure UserE : Type where
  id : String
  username : String
deriving DecidableEq, Repr

/-- A resolved guild-member entity. -/
structure MemberE : Type where
  user : Option UserE
  nick : Option String
deriving DecidableEq, Repr

/-- A resolved channel entity. -/
structure ChannelE : Type where
  id : String
  chanType : Nat
deriving DecidableEq, Repr

/-- A resolved role entity. -/
structure RoleE : Type where
  id : String
  roleName : String
deriving DecidableEq, Repr

/-- Modelled from the spec: `this.client.users.add(rawUser, false)` — the
caching user-resolver collaborator (the `User` structure and its manager are
not under `src/`); it materializes a user entity from the raw payload data. -/
def usersAdd (r : RawUser) : UserE :=
  { id := r.id, username := r.username }

/-- Modelled from the spec: `new User(this.client, rawUser)` — standalone
construction of a user entity directly from the raw payload, used when no
collaborator cache is available. -/
def newUser (r : RawUser) : UserE :=
  { id := r.id, username := r.username }

/-- Modelled from the spec: `this.guild.members.add(rawMember, false)` — the
member-resolver collaborator; it materializes a member entity from the raw
payload, resolving the payload's `user` field through the user resolver. -/
def membersAdd (r : RawMember) : MemberE :=
  { user := r.user.map usersAdd, nick := r.nick }

/-- Modelled from the spec: `this.client.channels.add(raw, false)` — the
caching channel-resolver collaborator. -/
def channelsAdd (r : RawChannel) : ChannelE :=
  { id := r.id, chanType := r.chanType }

/-- Modelled from the spec: `Channel.create(this.client, raw, this.guild)` —
standalone construction of a channel entity directly from the raw payload. -/
def channelCreate (r : RawChannel) : ChannelE :=
  { id := r.id, chanType := r.chanType }

/-- Modelled from the spec: `this.guild.roles.add(raw, false)` — the
role-resolver collaborator of the guild context. -/
def rolesAdd (r : RawRole) : RoleE :=
  { id := r.id, roleName := r.roleName }

/-- Modelled from the spec: `new Role(this.client, raw, undefined)` —
standalone construction of a role entity directly from the raw payload. -/
def newRole (r : RawRole) : RoleE :=
  { id := r.id, roleName := r.roleName }

/-- Modelled from the spec: the optional collaborator context seen by the
resolver — truthiness of `this.client.users`, of `this.client.channels` and of
`this.guild` (the guild context comes from the `Interaction` base structure,
not under `src/`; the spec calls it "optional guild/channel/user context"). -/
structure ClientCtx : Type where
  usersCache : Bool
  channelsCache : Bool
  guild : Bool
deriving DecidableEq, Repr

/-- A raw option node of the command payload: numeric `type` code, `name`,
optional scalar `value`, optional `options` children list (a JS object may
lack either field). -/
inductive RawOption : Type where
  | mk (type : Nat) (name : String) (value : Option JValue)
       (options : Option (List RawOption))

/-- The `name` field of a raw option node. -/
def RawOption.name : RawOption → String
  | .mk _ n _ _ => n

/-- The `type` field of a raw option node. -/
def RawOption.type : RawOption → Nat
  | .mk t _ _ _ => t

/-- A resolved option node, the output of `map`: container kinds keep a
children list, scalar kinds keep the raw `value`, reference kinds hold
resolved entities, and the default case passes the raw node through. -/
inductive OptionNode : Type where
  | subCommand (name : String) (options : List OptionNode)
  | subCommandGroup (name : String) (options : List OptionNode)
  | stringOpt (name : String) (value : Option JValue)
  | integerOpt (name : String) (value : Option JValue)
  | booleanOpt (name : String) (value : Option JValue)
  | userOpt (name : String) (user : UserE) (member : Option MemberE)
  | channelOpt (name : String) (channel : ChannelE)
  | roleOpt (name : String) (role : RoleE)
  | raw (o : RawOption)

/-- A thrown `TypeError`: each constructor records which `undefined` value the
JS code (or the entity collaborator it hands the value to) dereferences. -/
inductive ResolveErr : Type where
  | dataUndefined
  | optionsUndefined
  | resolvedUndefined
  | missingUserPayload
  | missingChannelPayload
  | missingRolePayload
deriving DecidableEq, Repr

mutual

/-- The `map` closure of the `CommandInteraction` constructor, one raw option
node at a time. `tb` is `data.data.resolved` (`none` when the payload lacks
it). Container kinds recurse into `o.options` (`undefined.map` throws);
scalar kinds pass `o.value` through; reference kinds look their `value` up in
the resolved tables, the USER case first writing the raw user payload into the
raw member payload (`rawMember.user = rawUser`), then hand the payload to the
caching collaborator when the cache (`client.users`, `client.channels`, the
guild for roles) is truthy and to standalone construction otherwise — a
payload missing from the tables is dereferenced by either and throws. Any
other `type` code returns the node unchanged. -/
def mapOpt (cl : ClientCtx) (tb : Option ResolvedTables) :
    RawOption → Except ResolveErr OptionNode
  | .mk t n v os =>
    if t = OptType_SUB_COMMAND then
      match os with
      | none => .error .optionsUndefined
      | some l => do
          let cs ← mapOptList cl tb l
          .ok (.subCommand n cs)
    else if t = OptType_SUB_COMMAND_GROUP then
      match os with
      | none => .error .optionsUndefined
      | some l => do
          let cs ← mapOptList cl tb l
          .ok (.subCommandGroup n cs)
    else if t = OptType_STRING then
      .ok (.stringOpt n v)
    else if t = OptType_INTEGER then
      .ok (.integerOpt n v)
    else if t = OptType_BOOLEAN then
      .ok (.booleanOpt n v)
    else if t = OptType_USER then
      match tb with
      | none => .error .resolvedUndefined
      | some tables =>
        let rawUser := v.bind fun k => lookupTable tables.users k
        let rawMember := v.bind fun k => lookupTable tables.members k
        let merged := rawMember.map fun m => { m with user := rawUser }
        match rawUser with
        | none => .error .missingUserPayload
        | some ru =>
          .ok (.userOpt n
            (if cl.usersCache then usersAdd ru else newUser ru)
            (match merged with
             | none => none
             | some m => if cl.guild then some (membersAdd m) else none))
    else if t = OptType_CHANNEL then
      match tb with
      | none => .error .resolvedUndefined
      | some tables =>
        match v.bind fun k => lookupTable tables.channels k with
        | none => .error .missingChannelPayload
        | some rc =>
          .ok (.channelOpt n
            (if cl.channelsCache then channelsAdd rc else channelCreate rc))
    else if t = OptType_ROLE then
      match tb with
      | none => .error .resolvedUndefined
      | some tables =>
        match v.bind fun k => lookupTable tables.roles k with
        | none => .error .missingRolePayload
        | some rr =>
          .ok (.roleOpt n (if cl.guild then rolesAdd rr else newRole rr))
    else
      .ok (.raw (.mk t n v os))

/-- `options.map(map)` over a children list, propagating a throw. -/
def mapOptList (cl : ClientCtx) (tb : Option ResolvedTables) :
    List RawOption → Except ResolveErr (List OptionNode)
  | [] => .ok []
  | o :: rest => do
      let x ← mapOpt cl tb o
      let xs ← mapOptList cl tb rest
      .ok (x :: xs)

end

/-- Acknowledgment envelope kinds (`InteractionResponseType` from
`util/Constants`, not under `src/`; the three names used by `handle`). -/
inductive InteractionResponseType : Type where
  | PONG
  | CHANNEL_MESSAGE_WITH_SOURCE
  | DEFERRED_CHANNEL_MESSAGE_WITH_SOURCE
deriving DecidableEq, Repr

/-- The acknowledgment envelope `{type, data?}` returned by `handle`. -/
structure Envelope : Type where
  type : InteractionResponseType
  data : Option String
deriving DecidableEq, Repr

/-- The outcome of `APIMessage...resolveData()/resolveFiles()` inside
`CommandInteraction.reply`: the message `data` (opaque here) and `files`. -/
structure ResolvedMessage : Type where
  data : String
  files : List String
deriving DecidableEq, Repr

/-- The race of `handle`'s APPLICATION_COMMAND case: `timedOut` is the closed
`let timedOut` flag, `result` is the state of `directPromise` (`none` while
pending; a JS promise keeps the first value it is resolved with). -/
structure RaceState : Type where
  timedOut : Bool
  result : Option Envelope
deriving DecidableEq, Repr

/-- The race as freshly armed: flag clear, promise pending. -/
def RaceState.init : RaceState :=
  { timedOut := false, result := none }

/-- JS `resolve(e)`: settles the promise if pending, a no-op otherwise. -/
def resolveRace (s : RaceState) (e : Envelope) : RaceState :=
  { s with result := match s.result with
                     | none => some e
                     | some r => some r }

/-- The body of the 250 ms `setTimeout` callback: set `timedOut = true`, then
resolve with the deferred envelope. -/
def timerFire (s : RaceState) : RaceState :=
  resolveRace { s with timedOut := true }
    { type := .DEFERRED_CHANNEL_MESSAGE_WITH_SOURCE, data := none }

/-- `syncHandle.reply(resolved)`: if `timedOut`, return `false` without
touching the race; otherwise resolve with a CHANNEL_MESSAGE_WITH_SOURCE
envelope carrying `resolved.data` and return `true`. -/
def syncHandleReply (s : RaceState) (resolved : ResolvedMessage) :
    Bool × RaceState :=
  if s.timedOut then
    (false, s)
  else
    (true, resolveRace s
      { type := .CHANNEL_MESSAGE_WITH_SOURCE, data := some resolved.data })

/-- One followup HTTP call
`api.webhooks(applicationID, token).post({data, files, query: {wait: true}})`. -/
structure FollowupCall : Type where
  applicationID : String
  token : String
  data : String
  files : List String
  wait : Bool
deriving DecidableEq, Repr

/-- The tail of `CommandInteraction.reply` once the message is resolved: call
`syncHandle.reply`; when it returns `false`, POST the followup to the webhook
endpoint with `wait: true`. Returns the new race state and the followup calls
made (empty when the reply won the race). -/
def interactionReply (appID token : String) (s : RaceState)
    (resolved : ResolvedMessage) : RaceState × List FollowupCall :=
  let r := syncHandleReply s resolved
  if r.1 then
    (r.2, [])
  else
    (r.2, [{ applicationID := appID, token := token, data := resolved.data,
             files := resolved.files, wait := true }])

/-- A scheduler event of the single-threaded cooperative runtime: either the
250 ms timer callback runs, or a handler's `interaction.reply` reaches the
race with its resolved message. -/
inductive Ev : Type where
  | timer
  | reply (resolved : ResolvedMessage)
deriving DecidableEq, Repr

/-- Run the scheduler events in order over the race state, accumulating the
followup calls the replies make. -/
def runTrace (appID token : String) (s : RaceState) :
    List Ev → RaceState × List FollowupCall
  | [] => (s, [])
  | .timer :: rest => runTrace appID token (timerFire s) rest
  | .reply r :: rest =>
      let step := interactionReply appID token s r
      let tail := runTrace appID token step.1 rest
      (tail.1, step.2 ++ tail.2)

/-- The `data.data` object of an APPLICATION_COMMAND payload: `id`, `name`,
optional `options` array, optional `resolved` tables. -/
structure CommandData : Type where
  id : String
  name : String
  options : Option (List RawOption)
  resolved : Option ResolvedTables

/-- An inbound interaction payload. `applicationID` and `token` are the
attributes the spec gives the `Interaction` value (issuing application
identifier, opaque continuation token; the `Interaction` base structure is not
under `src/`); `data` is the command sub-object, absent for non-command
payloads. -/
structure InteractionPayload : Type where
  id : String
  token : String
  applicationID : String
  type : Nat
  data : Option CommandData

/-- The option-resolution step of the `CommandInteraction` constructor:
`this.options = data.data.options.map(map)` — unconditional, so a payload
whose `data.data.options` is `undefined` throws. -/
def commandInteractionOptions (cl : ClientCtx) (d : CommandData) :
    Except ResolveErr (List OptionNode) :=
  match d.options with
  | none => .error .optionsUndefined
  | some l => mapOptList cl d.resolved l

/-- `InteractionClient.handle(data)`, the dispatcher switch on `data.type`:
PING returns a PONG envelope; APPLICATION_COMMAND arms the race, constructs
the `CommandInteraction` (resolving the option tree; a throw propagates),
emits the interaction to handlers and awaits the race, whose interleaving
with the handler's replies is the event trace `tr`; any other type logs a
debug line and returns `undefined` (`none`). The result pairs the envelope
(the race's settled value; `none` also when the race never settles, i.e. the
await never returns) with the followup calls made by the handler's replies. -/
def handle (cl : ClientCtx) (d : InteractionPayload) (tr : List Ev) :
    Except ResolveErr (Option Envelope × List FollowupCall) :=
  if d.type = InteractionType_PING then
    .ok (some { type := .PONG, data := none }, [])
  else if d.type = InteractionType_APPLICATION_COMMAND then
    match d.data with
    | none => .error .dataUndefined
    | some cd =>
      match commandInteractionOptions cl cd with
      | .error e => .error e
      | .ok _ =>
        let run := runTrace d.applicationID d.token RaceState.init tr
        .ok (run.1.result, run.2)
  else
    .ok (none, [])

/-- An inbound webhook request: the `x-signature-timestamp` header bytes, the
hex-decoded `x-signature-ed25519` header bytes, and the accumulated raw body
bytes. -/
structure WebRequest : Type where
  timestamp : List Nat
  signature : List Nat
  body : List Nat

/-- The response the middleware writes: a status code and, when not ended
empty, the JSON-stringified `handle` result. -/
structure WebResponse : Type where
  status : Nat
  body : Option (Option Envelope)

/-- A fatal error of the middleware request: a body that fails `JSON.parse`,
or a throw out of `handle`. -/
inductive MiddlewareErr : Type where
  | parseFailure
  | handleFailure (e : ResolveErr)
deriving DecidableEq, Repr

/-- `InteractionClient.middleware()`'s request handler. `verify` is modelled
from the spec: `sodium.methods.verify(signature, message, publicKey)` (the
`util/Sodium` module is not under `src/`), applied to the hex-decoded
signature, the concatenation `timestamp || body`, and the configured public
key; `parse` is modelled from the spec: `JSON.parse` of the body bytes. On
verification failure the middleware ends the response with status 401 and an
empty body without dispatching; otherwise it parses the body, dispatches it
through `handle` and ends with status 200. The second component lists the
payloads passed to `handle` (so to the option resolver), the third the
followup calls. -/
def middleware (verify : List Nat → List Nat → List Nat → Bool)
    (publicKey : List Nat) (parse : List Nat → Option InteractionPayload)
    (cl : ClientCtx) (req : WebRequest) (tr : List Ev) :
    Except MiddlewareErr (WebResponse × List InteractionPayload × List FollowupCall) :=
  if verify req.signature (req.timestamp ++ req.body) publicKey = false then
    .ok ({ status := 401, body := none }, [], [])
  else
    match parse req.body with
    | none => .error .parseFailure
    | some d =>
      match handle cl d tr with
      | .error e => .error (.handleFailure e)
      | .ok r => .ok ({ status := 200, body := some r.1 }, [d], r.2)

/-- One POST to
`api.interactions(data.id, data.token).callback.post({data, query: {wait:
true}})`: the interaction-callback call of the gateway transport; `data` is
the `handle` result, `none` standing for `undefined`. -/
structure CallbackPost : Type where
  id : String
  token : String
  data : Option Envelope
  wait : Bool
deriving DecidableEq, Repr

/-- `InteractionClient.handleFromGateway(data)`: await `handle`, then
unconditionally POST the result to the interaction-callback endpoint with
`wait: true`. Returns the callback POSTs made and the followup calls. -/
def handleFromGateway (cl : ClientCtx) (d : InteractionPayload) (tr : List Ev) :
    Except ResolveErr (List CallbackPost × List FollowupCall) :=
  match handle cl d tr with
  | .error e => .error e
  | .ok r =>
    .ok ([{ id := d.id, token := d.token, data := r.1, wait := true }], r.2)

/-- A tree shape: the node's `name` and its children's shapes in order, with
non-container nodes as leaves. Shape equality states that nesting depth and
the order of children at every level coincide. -/
inductive Shape : Type where
  | node (name : String) (children : List Shape)

mutual

/-- Shape of a raw option node: container kinds (subcommand,
subcommand-group) expose their children in order, every other kind is a
leaf. -/
def rawShape : RawOption → Shape
  | .mk t n _ os =>
    if t = OptType_SUB_COMMAND ∨ t = OptType_SUB_COMMAND_GROUP then
      .node n (match os with
               | none => []
               | some l => rawShapeList l)
    else
      .node n []

/-- Shapes of a list of raw option nodes, in order. -/
def rawShapeList : List RawOption → List Shape
  | [] => []
  | o :: rest => rawShape o :: rawShapeList rest

end

mutual

/-- Shape of a resolved option node. -/
def nodeShape : OptionNode → Shape
  | .subCommand n cs => .node n (nodeShapeList cs)
  | .subCommandGroup n cs => .node n (nodeShapeList cs)
  | .stringOpt n _ => .node n []
  | .integerOpt n _ => .node n []
  | .booleanOpt n _ => .node n []
  | .userOpt n _ _ => .node n []
  | .channelOpt n _ => .node n []
  | .roleOpt n _ => .node n []
  | .raw o => .node o.name []

/-- Shapes of a list of resolved option nodes, in order. -/
def nodeShapeList : List OptionNode → List Shape
  | [] => []
  | o :: rest => nodeShape o :: nodeShapeList rest

end

/-- Decision of the property claimed of a resolved user-reference node: the
node is a user option whose member is present and whose member's `user` field
equals the node's resolved user. -/
def memberUserMatchesResolvedUser : OptionNode → Bool
  | .userOpt _ u (some m) => decide (m.user = some u)
  | _ => false

/-! Helper lemmas about the race and the scheduler traces. -/

lemma resolveRace_result_some (s : RaceState) (env e : Envelope)
    (h : s.result = some env) : (resolveRace s e).result = some env := by
  simp [resolveRace, h]

lemma timerFire_result_some (s : RaceState) (env : Envelope)
    (h : s.result = some env) : (timerFire s).result = some env := by
  simp [timerFire, resolveRace, h]

lemma timerFire_settled (s : RaceState) (env : Envelope) (ht : s.timedOut = true)
    (h : s.result = some env) : timerFire s = s := by
  cases s
  simp_all [timerFire, resolveRace]

lemma runTrace_timers_keep (a t : String) (tr : List Ev)
    (h : ∀ e ∈ tr, e = Ev.timer) (s : RaceState) (env : Envelope)
    (hres : s.result = some env) :
    (runTrace a t s tr).1.result = some env ∧ (runTrace a t s tr).2 = [] := by
  induction tr generalizing s with
  | nil => simp [runTrace, hres]
  | cons e rest ih =>
    have he : e = Ev.timer := h e (by simp)
    subst he
    have h' : ∀ e ∈ rest, e = Ev.timer := fun e hm => h e (by simp [hm])
    simpa [runTrace] using ih h' (timerFire s) (timerFire_result_some s env hres)

lemma runTrace_timers_settled (a t : String) (tr : List Ev)
    (h : ∀ e ∈ tr, e = Ev.timer) (s : RaceState) (env : Envelope)
    (ht : s.timedOut = true) (hres : s.result = some env) :
    runTrace a t s tr = (s, []) := by
  induction tr with
  | nil => rfl
  | cons e rest ih =>
    have he : e = Ev.timer := h e (by simp)
    subst he
    have h' : ∀ e ∈ rest, e = Ev.timer := fun e hm => h e (by simp [hm])
    calc runTrace a t s (Ev.timer :: rest)
        = runTrace a t (timerFire s) rest := by simp [runTrace]
      _ = runTrace a t s rest := by rw [timerFire_settled s env ht hres]
      _ = (s, []) := ih h'

lemma runTrace_append (a t : String) (l₁ l₂ : List Ev) (s : RaceState) :
    runTrace a t s (l₁ ++ l₂)
      = ((runTrace a t (runTrace a t s l₁).1 l₂).1,
         (runTrace a t s l₁).2 ++ (runTrace a t (runTrace a t s l₁).1 l₂).2) := by
  induction l₁ generalizing s with
  | nil => simp [runTrace]
  | cons e rest ih =>
    cases e with
    | timer => simp [runTrace, ih]
    | reply r => simp [runTrace, ih]

/-! The claims. -/

/-- C1 (counterexample): the claim says the second of two `attemptReply`
calls on the same ReplyChannel always returns `false`. On the code it does
not: with the race freshly armed (the timer not yet fired), two consecutive
`syncHandle.reply` calls both return `true` — the `timedOut` flag is still
`false` at the second call, so it takes the `return true` branch (its
`resolve` being a silent no-op on the already-settled promise). The second
reply is therefore not routed to the followup path. -/
theorem syncHandleReply_second_true :
    (syncHandleReply
        (syncHandleReply RaceState.init { data := "first", files := [] }).2
        { data := "second", files := [] }).1 = true := rfl

/-- C1 (amended): the first call's return value reflects whether it won the
race; the second call returns `false` — and is then routed to the
asynchronous followup path — exactly when the 250 ms timer has fired by the
time it runs. If the timer has not fired, the second call also returns
`true`, makes no followup call, and its resolution is a no-op on the
already-settled race, so that second reply is dropped. The three schedulings
of the timer relative to the two calls: (timer after both) both calls return
`true`, the second leaves the race result unchanged and makes no followup
call; (timer between them) the first returns `true`, the second returns
`false` and makes exactly the followup call for its payload; (timer before
both) both return `false`. -/
theorem syncHandleReply_twice (a t : String) (r1 r2 : ResolvedMessage) :
    ((syncHandleReply RaceState.init r1).1 = true
      ∧ (syncHandleReply (syncHandleReply RaceState.init r1).2 r2).1 = true
      ∧ (syncHandleReply (syncHandleReply RaceState.init r1).2 r2).2.result
          = (syncHandleReply RaceState.init r1).2.result
      ∧ (interactionReply a t (syncHandleReply RaceState.init r1).2 r2).2 = [])
  ∧ ((syncHandleReply (timerFire (syncHandleReply RaceState.init r1).2) r2).1 = false
      ∧ (interactionReply a t (timerFire (syncHandleReply RaceState.init r1).2) r2).2
          = [{ applicationID := a, token := t, data := r2.data,
               files := r2.files, wait := true }])
  ∧ ((syncHandleReply (timerFire RaceState.init) r1).1 = false
      ∧ (syncHandleReply (syncHandleReply (timerFire RaceState.init) r1).2 r2).1
          = false) :=
  ⟨⟨rfl, rfl, rfl, rfl⟩, ⟨rfl, rfl⟩, ⟨rfl, rfl⟩⟩

/-- C4: a webhook request whose signature does not validate over
`timestamp || body` against the configured public key is answered with status
401 and an empty body, and the dispatcher is never invoked: no payload is
passed to `handle` (hence none reaches the option resolver) and no followup
call is made. -/
theorem middleware_unauthorized (verify : List Nat → List Nat → List Nat → Bool)
    (publicKey : List Nat) (parse : List Nat → Option InteractionPayload)
    (cl : ClientCtx) (req : WebRequest) (tr : List Ev)
    (h : verify req.signature (req.timestamp ++ req.body) publicKey = false) :
    middleware verify publicKey parse cl req tr
      = .ok ({ status := 401, body := none }, [], []) := by
  simp [middleware, h]

/-- Witness for C4 at a concrete rejecting verifier and request. -/
theorem middleware_unauthorized_witness :
    middleware (fun _ _ _ => false) [] (fun _ => none)
        { usersCache := true, channelsCache := true, guild := true }
        { timestamp := [49], signature := [0], body := [123] } []
      = .ok ({ status := 401, body := none }, [], []) :=
  middleware_unauthorized _ _ _ _ _ _ rfl

/-- C8: a raw option node whose numeric `type` code is none of the eight
recognized kinds is returned by the resolver unchanged (the raw node itself),
and no error is raised. -/
theorem mapOpt_unrecognized_passthrough (cl : ClientCtx)
    (tb : Option ResolvedTables) (t : Nat) (n : String) (v : Option JValue)
    (os : Option (List RawOption))
    (h1 : t ≠ OptType_SUB_COMMAND) (h2 : t ≠ OptType_SUB_COMMAND_GROUP)
    (h3 : t ≠ OptType_STRING) (h4 : t ≠ OptType_INTEGER)
    (h5 : t ≠ OptType_BOOLEAN) (h6 : t ≠ OptType_USER)
    (h7 : t ≠ OptType_CHANNEL) (h8 : t ≠ OptType_ROLE) :
    mapOpt cl tb (.mk t n v os) = .ok (.raw (.mk t n v os)) := by
  rw [mapOpt.eq_def]
  simp [h1, h2, h3, h4, h5, h6, h7, h8]

/-- Witness for C8 at the concrete unrecognized code 100. -/
theorem mapOpt_unrecognized_passthrough_witness :
    mapOpt { usersCache := true, channelsCache := true, guild := true } none
        (.mk 100 "future" none none)
      = .ok (.raw (.mk 100 "future" none none)) :=
  mapOpt_unrecognized_passthrough _ _ _ _ _ _ (by decide) (by decide) (by decide)
    (by decide) (by decide) (by decide) (by decide) (by decide)

/-- C9: for a payload of unknown interaction kind delivered via the gateway,
`handleFromGateway` still performs the interaction-callback POST (keyed by
the payload's id and token, with `wait: true`) even though `handle` produced
no envelope: the POST's `data` field is the absent result; no followup call
is made. -/
theorem handleFromGateway_unknown_kind (cl : ClientCtx)
    (d : InteractionPayload) (tr : List Ev)
    (h1 : d.type ≠ InteractionType_PING)
    (h2 : d.type ≠ InteractionType_APPLICATION_COMMAND) :
    handleFromGateway cl d tr
      = .ok ([{ id := d.id, token := d.token, data := none, wait := true }], []) := by
  simp [handleFromGateway, handle, h1, h2]

/-- Witness for C9 at the concrete unknown interaction type 99. -/
theorem handleFromGateway_unknown_kind_witness :
    handleFromGateway { usersCache := true, channelsCache := true, guild := true }
        { id := "i", token := "tok", applicationID := "app", type := 99, data := none } []
      = .ok ([{ id := "i", token := "tok", data := none, wait := true }], []) :=
  handleFromGateway_unknown_kind _ _ _ (by decide) (by decide)

lemma runTrace_reply_first (a t : String) (P : ResolvedMessage) (rest : List Ev)
    (hrest : ∀ e ∈ rest, e = Ev.timer) :
    runTrace a t RaceState.init (Ev.reply P :: rest)
      = ((runTrace a t RaceState.init (Ev.reply P :: rest)).1, [])
    ∧ (runTrace a t RaceState.init (Ev.reply P :: rest)).1.result
        = some { type := .CHANNEL_MESSAGE_WITH_SOURCE, data := some P.data } := by
  have hstep : interactionReply a t RaceState.init P
      = ({ timedOut := false,
           result := some { type := .CHANNEL_MESSAGE_WITH_SOURCE,
                            data := some P.data } }, []) := rfl
  have hkeep := runTrace_timers_keep a t rest hrest
      { timedOut := false,
        result := some { type := .CHANNEL_MESSAGE_WITH_SOURCE, data := some P.data } }
      { type := .CHANNEL_MESSAGE_WITH_SOURCE, data := some P.data } rfl
  constructor
  · simp [runTrace, hstep, hkeep.2]
  · simp [runTrace, hstep, hkeep.1]

/-- C2: for an APPLICATION_COMMAND payload whose handler's reply reaches the
race while it is still pending (its scheduler event precedes the timer
callback) with resolved payload P, `handle` returns the immediate envelope
`{type: CHANNEL_MESSAGE_WITH_SOURCE, data: P.data}` (the spec's
IMMEDIATE_MESSAGE) and no followup HTTP call is made. -/
theorem handle_reply_within_window (cl : ClientCtx) (d : InteractionPayload)
    (cd : CommandData) (nodes : List OptionNode) (P : ResolvedMessage)
    (rest : List Ev)
    (htype : d.type = InteractionType_APPLICATION_COMMAND)
    (hdata : d.data = some cd)
    (hopts : commandInteractionOptions cl cd = .ok nodes)
    (hrest : ∀ e ∈ rest, e = Ev.timer) :
    handle cl d (Ev.reply P :: rest)
      = .ok (some { type := .CHANNEL_MESSAGE_WITH_SOURCE, data := some P.data },
             []) := by
  obtain ⟨hcalls, hres⟩ :=
    runTrace_reply_first d.applicationID d.token P rest hrest
  simp [handle, htype, hdata, hopts, InteractionType_PING,
        InteractionType_APPLICATION_COMMAND, hres,
        congrArg Prod.snd hcalls]

/-- Witness for C2: a concrete command payload with an empty options array,
a handler reply scheduled before the timer callback. -/
theorem handle_reply_within_window_witness :
    handle { usersCache := true, channelsCache := true, guild := true }
        { id := "i", token := "tok", applicationID := "app",
          type := InteractionType_APPLICATION_COMMAND,
          data := some { id := "c", name := "cmd", options := some [],
                         resolved := none } }
        [Ev.reply { data := "hello", files := [] }, Ev.timer]
      = .ok (some { type := .CHANNEL_MESSAGE_WITH_SOURCE, data := some "hello" },
             []) :=
  handle_reply_within_window _ _ _ [] _ _ rfl rfl rfl
    (by intro e he; simp at he; exact he)

lemma runTrace_timeout_then_reply (a t : String) (P : ResolvedMessage)
    (t1 t2 : List Ev) (h1 : ∀ e ∈ t1, e = Ev.timer)
    (h2 : ∀ e ∈ t2, e = Ev.timer) :
    runTrace a t RaceState.init (Ev.timer :: (t1 ++ Ev.reply P :: t2))
      = ({ timedOut := true,
           result := some { type := .DEFERRED_CHANNEL_MESSAGE_WITH_SOURCE,
                            data := none } },
         [{ applicationID := a, token := t, data := P.data,
            files := P.files, wait := true }]) := by
  have hfire : timerFire RaceState.init
      = { timedOut := true,
          result := some { type := .DEFERRED_CHANNEL_MESSAGE_WITH_SOURCE,
                           data := none } } := rfl
  have hs1 := runTrace_timers_settled a t t1 h1
      { timedOut := true,
        result := some { type := .DEFERRED_CHANNEL_MESSAGE_WITH_SOURCE,
                         data := none } }
      { type := .DEFERRED_CHANNEL_MESSAGE_WITH_SOURCE, data := none } rfl rfl
  have hs2 := runTrace_timers_settled a t t2 h2
      { timedOut := true,
        result := some { type := .DEFERRED_CHANNEL_MESSAGE_WITH_SOURCE,
                         data := none } }
      { type := .DEFERRED_CHANNEL_MESSAGE_WITH_SOURCE, data := none } rfl rfl
  have hrepl : interactionReply a t
      { timedOut := true,
        result := some { type := .DEFERRED_CHANNEL_MESSAGE_WITH_SOURCE,
                         data := none } } P
      = ({ timedOut := true,
           result := some { type := .DEFERRED_CHANNEL_MESSAGE_WITH_SOURCE,
                            data := none } },
         [{ applicationID := a, token := t, data := P.data,
            files := P.files, wait := true }]) := rfl
  calc runTrace a t RaceState.init (Ev.timer :: (t1 ++ Ev.reply P :: t2))
      = runTrace a t (timerFire RaceState.init) (t1 ++ Ev.reply P :: t2) := by
        simp [runTrace]
    _ = ({ timedOut := true,
           result := some { type := .DEFERRED_CHANNEL_MESSAGE_WITH_SOURCE,
                            data := none } },
         [{ applicationID := a, token := t, data := P.data,
            files := P.files, wait := true }]) := by
        rw [hfire, runTrace_append, hs1]
        simp [runTrace, hrepl, hs2]

/-- C3: for an APPLICATION_COMMAND payload whose handler replies only after
the 250 ms timer callback has run, `handle` returns the envelope
`{type: DEFERRED_CHANNEL_MESSAGE_WITH_SOURCE}` with no payload (the value the
race settled on before the reply arrived — the spec's DEFERRED_MESSAGE), and
exactly one followup HTTP call to the webhook-message endpoint with
`wait: true` carries the handler's payload. -/
theorem handle_reply_after_timeout (cl : ClientCtx) (d : InteractionPayload)
    (cd : CommandData) (nodes : List OptionNode) (P : ResolvedMessage)
    (t1 t2 : List Ev)
    (htype : d.type = InteractionType_APPLICATION_COMMAND)
    (hdata : d.data = some cd)
    (hopts : commandInteractionOptions cl cd = .ok nodes)
    (h1 : ∀ e ∈ t1, e = Ev.timer) (h2 : ∀ e ∈ t2, e = Ev.timer) :
    handle cl d (Ev.timer :: (t1 ++ Ev.reply P :: t2))
      = .ok (some { type := .DEFERRED_CHANNEL_MESSAGE_WITH_SOURCE, data := none },
             [{ applicationID := d.applicationID, token := d.token,
                data := P.data, files := P.files, wait := true }]) := by
  simp [handle, htype, hdata, hopts, InteractionType_PING,
        InteractionType_APPLICATION_COMMAND,
        runTrace_timeout_then_reply d.applicationID d.token P t1 t2 h1 h2]

/-- Witness for C3: a concrete command payload, the timer firing first, the
handler's reply arriving afterwards. -/
theorem handle_reply_after_timeout_witness :
    handle { usersCache := true, channelsCache := true, guild := true }
        { id := "i", token := "tok", applicationID := "app",
          type := InteractionType_APPLICATION_COMMAND,
          data := some { id := "c", name := "cmd", options := some [],
                         resolved := none } }
        [Ev.timer, Ev.reply { data := "late", files := ["f.png"] }]
      = .ok (some { type := .DEFERRED_CHANNEL_MESSAGE_WITH_SOURCE, data := none },
             [{ applicationID := "app", token := "tok", data := "late",
                files := ["f.png"], wait := true }]) :=
  handle_reply_after_timeout _ _ _ [] _ [] [] rfl rfl rfl
    (by intro e he; simp at he) (by intro e he; simp at he)

/-- C10: an APPLICATION_COMMAND payload whose `data.data.options` field is
absent makes `handle` throw (the constructor evaluates
`data.data.options.map(map)` unconditionally) rather than produce an
interaction with an empty option tree. -/
theorem handle_missing_options_throws (cl : ClientCtx)
    (i tok appID cid cname : String) (res : Option ResolvedTables)
    (tr : List Ev) :
    handle cl
        { id := i, token := tok, applicationID := appID,
          type := InteractionType_APPLICATION_COMMAND,
          data := some { id := cid, name := cname, options := none,
                         resolved := res } } tr
      = .error .optionsUndefined := by
  simp [handle, commandInteractionOptions, InteractionType_PING,
        InteractionType_APPLICATION_COMMAND]

/-- C5 (counterexample): the claim says any user-reference option whose value
keys both a raw user and a raw member payload resolves to a node whose
member's `user` equals the resolved user. When no guild context exists, the
code resolves the member to `null` (`this.guild?.members.add(...) ?? null`),
so the node has no member at all: here both payloads are present under key
"1", yet the node's member is `none`. -/
theorem userOption_member_null_without_guild :
    mapOpt { usersCache := true, channelsCache := true, guild := false }
        (some { users := [(JValue.str "1", { id := "1", username := "alice" })],
                members := [(JValue.str "1", { user := none, nick := some "nn" })],
                channels := [], roles := [] })
        (.mk OptType_USER "target" (some (.str "1")) none)
      = .ok (.userOpt "target" { id := "1", username := "alice" } none)
    ∧ memberUserMatchesResolvedUser
        (.userOpt "target" { id := "1", username := "alice" } none) = false :=
  ⟨rfl, rfl⟩

/-- C5 (amended): for a user-reference option whose value keys both a raw
user payload and a raw member payload, provided a guild context exists, the
resolved node carries a member whose `user` field equals the node's resolved
user — the `map` USER case writes the raw user payload into the raw member
payload (`rawMember.user = rawUser`) before member resolution, so both fields
are materialized from the same raw user. Without a guild context the member
is `null`. -/
theorem userOption_member_user_equals_resolved_user (cl : ClientCtx)
    (tb : ResolvedTables) (n : String) (v : JValue)
    (os : Option (List RawOption)) (ru : RawUser) (rm : RawMember)
    (hu : lookupTable tb.users v = some ru)
    (hm : lookupTable tb.members v = some rm)
    (hg : cl.guild = true) :
    mapOpt cl (some tb) (.mk OptType_USER n (some v) os)
      = .ok (.userOpt n (if cl.usersCache then usersAdd ru else newUser ru)
               (some (membersAdd { rm with user := some ru })))
    ∧ (membersAdd { rm with user := some ru }).user
        = some (if cl.usersCache then usersAdd ru else newUser ru) := by
  constructor
  · rw [mapOpt.eq_def]
    simp only [OptType_SUB_COMMAND, OptType_SUB_COMMAND_GROUP, OptType_STRING,
      OptType_INTEGER, OptType_BOOLEAN, OptType_USER]
    norm_num
    simp [hu, hm, hg]
  · cases hcache : cl.usersCache <;> simp [membersAdd, usersAdd, newUser]

/-- Witness for the amended C5 at concrete tables holding both payloads under
key "1" and a client with a guild context. -/
theorem userOption_member_user_equals_resolved_user_witness :
    mapOpt { usersCache := true, channelsCache := true, guild := true }
        (some { users := [(JValue.str "1", { id := "1", username := "alice" })],
                members := [(JValue.str "1", { user := none, nick := some "nn" })],
                channels := [], roles := [] })
        (.mk OptType_USER "target" (some (.str "1")) none)
      = .ok (.userOpt "target" { id := "1", username := "alice" }
               (some { user := some { id := "1", username := "alice" },
                       nick := some "nn" }))
    ∧ (membersAdd { user := some { id := "1", username := "alice" },
                    nick := some "nn" }).user
        = some { id := "1", username := "alice" } :=
  userOption_member_user_equals_resolved_user
    { usersCache := true, channelsCache := true, guild := true }
    { users := [(JValue.str "1", { id := "1", username := "alice" })],
      members := [(JValue.str "1", { user := none, nick := some "nn" })],
      channels := [], roles := [] }
    "target" (.str "1") none { id := "1", username := "alice" }
    { user := none, nick := some "nn" } rfl rfl rfl

/-- C6 (counterexample): the claim says a reference-typed option whose
resolved-entity payload is missing from the resolved-entities tables degrades
to a standalone entity instead of failing. On the code it fails: with the
tables present but empty, the USER case hands the missing (`undefined`)
payload to the entity constructor, which dereferences it and throws — the
whole resolution errors, caches present or not. -/
theorem missing_payload_resolution_throws :
    mapOpt { usersCache := true, channelsCache := true, guild := true }
        (some { users := [], members := [], channels := [], roles := [] })
        (.mk OptType_USER "u" (some (.str "42")) none)
      = .error .missingUserPayload := rfl

/-- C6 (amended): the degradation the code implements is keyed on the
collaborator cache, not on the payload: for a reference-typed option whose
payload is present in the tables but with no collaborator cache available (no
client user or channel cache, no guild for roles), resolution constructs a
standalone entity directly from the raw payload — `new User`,
`Channel.create`, `new Role` — and does not fail. A payload missing from the
tables, by contrast, makes resolution throw. -/
theorem standalone_entity_without_cache (tb : ResolvedTables) (n : String)
    (v : JValue) (os : Option (List RawOption)) (ru : RawUser)
    (rc : RawChannel) (rr : RawRole)
    (hu : lookupTable tb.users v = some ru)
    (hm : lookupTable tb.members v = none)
    (hc : lookupTable tb.channels v = some rc)
    (hr : lookupTable tb.roles v = some rr) :
    mapOpt { usersCache := false, channelsCache := false, guild := false }
        (some tb) (.mk OptType_USER n (some v) os)
      = .ok (.userOpt n (newUser ru) none)
  ∧ mapOpt { usersCache := false, channelsCache := false, guild := false }
        (some tb) (.mk OptType_CHANNEL n (some v) os)
      = .ok (.channelOpt n (channelCreate rc))
  ∧ mapOpt { usersCache := false, channelsCache := false, guild := false }
        (some tb) (.mk OptType_ROLE n (some v) os)
      = .ok (.roleOpt n (newRole rr)) := by
  refine ⟨?_, ?_, ?_⟩ <;>
    (rw [mapOpt.eq_def]
     simp only [OptType_SUB_COMMAND, OptType_SUB_COMMAND_GROUP, OptType_STRING,
       OptType_INTEGER, OptType_BOOLEAN, OptType_USER, OptType_CHANNEL,
       OptType_ROLE]
     norm_num
     simp [hu, hm, hc, hr])

/-- Witness for the amended C6 at concrete tables holding all three payloads
under key "7" and a cacheless, guildless client. -/
theorem standalone_entity_without_cache_witness :
    mapOpt { usersCache := false, channelsCache := false, guild := false }
        (some { users := [(JValue.str "7", { id := "7", username := "bob" })],
                members := [],
                channels := [(JValue.str "7", { id := "7", chanType := 0 })],
                roles := [(JValue.str "7", { id := "7", roleName := "mod" })] })
        (.mk OptType_USER "x" (some (.str "7")) none)
      = .ok (.userOpt "x" (newUser { id := "7", username := "bob" }) none)
  ∧ mapOpt { usersCache := false, channelsCache := false, guild := false }
        (some { users := [(JValue.str "7", { id := "7", username := "bob" })],
                members := [],
                channels := [(JValue.str "7", { id := "7", chanType := 0 })],
                roles := [(JValue.str "7", { id := "7", roleName := "mod" })] })
        (.mk OptType_CHANNEL "x" (some (.str "7")) none)
      = .ok (.channelOpt "x" (channelCreate { id := "7", chanType := 0 }))
  ∧ mapOpt { usersCache := false, channelsCache := false, guild := false }
        (some { users := [(JValue.str "7", { id := "7", username := "bob" })],
                members := [],
                channels := [(JValue.str "7", { id := "7", chanType := 0 })],
                roles := [(JValue.str "7", { id := "7", roleName := "mod" })] })
        (.mk OptType_ROLE "x" (some (.str "7")) none)
      = .ok (.roleOpt "x" (newRole { id := "7", roleName := "mod" })) :=
  standalone_entity_without_cache
    { users := [(JValue.str "7", { id := "7", username := "bob" })],
      members := [],
      channels := [(JValue.str "7", { id := "7", chanType := 0 })],
      roles := [(JValue.str "7", { id := "7", roleName := "mod" })] }
    "x" (.str "7") none { id := "7", username := "bob" }
    { id := "7", chanType := 0 } { id := "7", roleName := "mod" }
    rfl rfl rfl rfl

lemma rawShape_sub (n : String) (v : Option JValue) (l : List RawOption) :
    rawShape (.mk OptType_SUB_COMMAND n v (some l)) = .node n (rawShapeList l) := by
  rw [rawShape.eq_def]
  simp

lemma rawShape_group (n : String) (v : Option JValue) (l : List RawOption) :
    rawShape (.mk OptType_SUB_COMMAND_GROUP n v (some l))
      = .node n (rawShapeList l) := by
  rw [rawShape.eq_def]
  simp [OptType_SUB_COMMAND, OptType_SUB_COMMAND_GROUP]

lemma rawShape_notContainer (t : Nat) (n : String) (v : Option JValue)
    (os : Option (List RawOption)) (h1 : t ≠ OptType_SUB_COMMAND)
    (h2 : t ≠ OptType_SUB_COMMAND_GROUP) :
    rawShape (.mk t n v os) = .node n [] := by
  rw [rawShape.eq_def]
  simp [h1, h2]

lemma mapShape_both (cl : ClientCtx) (tb : Option ResolvedTables) :
    (∀ o node, mapOpt cl tb o = .ok node → nodeShape node = rawShape o)
  ∧ (∀ l ns, mapOptList cl tb l = .ok ns → nodeShapeList ns = rawShapeList l) := by
  refine mapOpt.mutual_induct cl tb
    (fun o => ∀ node, mapOpt cl tb o = .ok node → nodeShape node = rawShape o)
    (fun l => ∀ ns, mapOptList cl tb l = .ok ns → nodeShapeList ns = rawShapeList l)
    ?_ ?_ ?_ ?_ ?_ ?_ ?_ ?_ ?_ ?_ ?_ ?_ ?_ ?_ ?_ ?_ ?_ ?_ ?_
  · intro n v node h
    rw [show mapOpt cl tb (RawOption.mk OptType_SUB_COMMAND n v none)
        = Except.error .optionsUndefined from rfl] at h
    simp at h
  · intro n v l ih node h
    rw [show mapOpt cl tb (RawOption.mk OptType_SUB_COMMAND n v (some l))
        = (mapOptList cl tb l).bind (fun cs => .ok (.subCommand n cs)) from rfl] at h
    cases hl : mapOptList cl tb l with
    | error e => rw [hl] at h; simp [Except.bind] at h
    | ok cs =>
      rw [hl] at h
      simp [Except.bind] at h
      subst h
      rw [rawShape_sub]
      exact congrArg (Shape.node n) (ih cs hl)
  · intro n v _ node h
    rw [show mapOpt cl tb (RawOption.mk OptType_SUB_COMMAND_GROUP n v none)
        = Except.error .optionsUndefined from rfl] at h
    simp at h
  · intro n v l _ ih node h
    rw [show mapOpt cl tb (RawOption.mk OptType_SUB_COMMAND_GROUP n v (some l))
        = (mapOptList cl tb l).bind (fun cs => .ok (.subCommandGroup n cs)) from rfl] at h
    cases hl : mapOptList cl tb l with
    | error e => rw [hl] at h; simp [Except.bind] at h
    | ok cs =>
      rw [hl] at h
      simp [Except.bind] at h
      subst h
      rw [rawShape_group]
      exact congrArg (Shape.node n) (ih cs hl)
  · intro n v os _ _ node h
    rw [show mapOpt cl tb (RawOption.mk OptType_STRING n v os)
        = .ok (.stringOpt n v) from rfl] at h
    simp at h
    subst h
    rw [rawShape_notContainer _ _ _ _ (by decide) (by decide)]
    rfl
  · intro n v os _ _ _ node h
    rw [show mapOpt cl tb (RawOption.mk OptType_INTEGER n v os)
        = .ok (.integerOpt n v) from rfl] at h
    simp at h
    subst h
    rw [rawShape_notContainer _ _ _ _ (by decide) (by decide)]
    rfl
  · intro n v os _ _ _ _ node h
    rw [show mapOpt cl tb (RawOption.mk OptType_BOOLEAN n v os)
        = .ok (.booleanOpt n v) from rfl] at h
    simp at h
    subst h
    rw [rawShape_notContainer _ _ _ _ (by decide) (by decide)]
    rfl
  · intro n v os htb _ _ _ _ _ node h
    subst htb
    rw [show mapOpt cl none (RawOption.mk OptType_USER n v os)
        = Except.error .resolvedUndefined from rfl] at h
    simp at h
  · intro n v os tables htb rawUser hru _ _ _ _ _ node h
    subst htb
    have hru2 : (v.bind fun k => lookupTable tables.users k) = none := hru
    rw [mapOpt.eq_def] at h
    simp only [OptType_SUB_COMMAND, OptType_SUB_COMMAND_GROUP, OptType_STRING,
      OptType_INTEGER, OptType_BOOLEAN, OptType_USER] at h
    norm_num at h
    rw [hru2] at h
    simp at h
  · intro n v os tables htb rawUser ru hru _ _ _ _ _ node h
    subst htb
    have hru2 : (v.bind fun k => lookupTable tables.users k) = some ru := hru
    rw [mapOpt.eq_def] at h
    simp only [OptType_SUB_COMMAND, OptType_SUB_COMMAND_GROUP, OptType_STRING,
      OptType_INTEGER, OptType_BOOLEAN, OptType_USER] at h
    norm_num at h
    rw [hru2] at h
    simp at h
    subst h
    rw [rawShape_notContainer _ _ _ _ (by decide) (by decide)]
    rfl
  · intro n v os htb _ _ _ _ _ _ node h
    subst htb
    rw [show mapOpt cl none (RawOption.mk OptType_CHANNEL n v os)
        = Except.error .resolvedUndefined from rfl] at h
    simp at h
  · intro n v os tables htb hrc _ _ _ _ _ _ node h
    subst htb
    rw [mapOpt.eq_def] at h
    simp only [OptType_SUB_COMMAND, OptType_SUB_COMMAND_GROUP, OptType_STRING,
      OptType_INTEGER, OptType_BOOLEAN, OptType_USER, OptType_CHANNEL] at h
    norm_num at h
    rw [hrc] at h
    simp at h
  · intro n v os tables htb rc hrc _ _ _ _ _ _ node h
    subst htb
    rw [mapOpt.eq_def] at h
    simp only [OptType_SUB_COMMAND, OptType_SUB_COMMAND_GROUP, OptType_STRING,
      OptType_INTEGER, OptType_BOOLEAN, OptType_USER, OptType_CHANNEL] at h
    norm_num at h
    rw [hrc] at h
    simp at h
    subst h
    rw [rawShape_notContainer _ _ _ _ (by decide) (by decide)]
    rfl
  · intro n v os htb _ _ _ _ _ _ _ node h
    subst htb
    rw [show mapOpt cl none (RawOption.mk OptType_ROLE n v os)
        = Except.error .resolvedUndefined from rfl] at h
    simp at h
  · intro n v os tables htb hrr _ _ _ _ _ _ _ node h
    subst htb
    rw [mapOpt.eq_def] at h
    simp only [OptType_SUB_COMMAND, OptType_SUB_COMMAND_GROUP, OptType_STRING,
      OptType_INTEGER, OptType_BOOLEAN, OptType_USER, OptType_CHANNEL,
      OptType_ROLE] at h
    norm_num at h
    rw [hrr] at h
    simp at h
  · intro n v os tables htb rr hrr _ _ _ _ _ _ _ node h
    subst htb
    rw [mapOpt.eq_def] at h
    simp only [OptType_SUB_COMMAND, OptType_SUB_COMMAND_GROUP, OptType_STRING,
      OptType_INTEGER, OptType_BOOLEAN, OptType_USER, OptType_CHANNEL,
      OptType_ROLE] at h
    norm_num at h
    rw [hrr] at h
    simp at h
    subst h
    rw [rawShape_notContainer _ _ _ _ (by decide) (by decide)]
    rfl
  · intro t n v os h1 h2 _ _ _ _ _ _ node h
    rw [mapOpt.eq_def] at h
    simp only [h1, h2, if_false] at h
    split at h <;> simp_all
    · subst h; rw [rawShape_notContainer _ _ _ _ h1 h2]; rfl
  · intro ns h
    rw [show mapOptList cl tb ([] : List RawOption) = .ok [] from rfl] at h
    simp at h
    subst h
    rfl
  · intro o rest iho ihrest ns h
    rw [show mapOptList cl tb (o :: rest)
        = (mapOpt cl tb o).bind (fun x => (mapOptList cl tb rest).bind
            (fun xs => .ok (x :: xs))) from rfl] at h
    cases ho : mapOpt cl tb o with
    | error e => rw [ho] at h; simp [Except.bind] at h
    | ok x =>
      rw [ho] at h
      cases hrest : mapOptList cl tb rest with
      | error e => rw [hrest] at h; simp [Except.bind] at h
      | ok xs =>
        rw [hrest] at h
        simp [Except.bind] at h
        subst h
        rw [show nodeShapeList (x :: xs) = nodeShape x :: nodeShapeList xs from rfl]
        rw [show rawShapeList (o :: rest) = rawShape o :: rawShapeList rest from rfl]
        rw [iho x ho, ihrest xs hrest]

/-- C7: whenever option resolution succeeds on a raw option node, the
resolved node's shape — container nodes (subcommand, subcommand-group)
recursing into their `options` list — has exactly the input's nesting depth
and the input's order of children at every level; in particular a three-level
tree (subcommand-group containing a subcommand containing a scalar) resolves
to the same shape and order. -/
theorem mapOpt_preserves_shape (cl : ClientCtx) (tb : Option ResolvedTables)
    (o : RawOption) (node : OptionNode) (h : mapOpt cl tb o = .ok node) :
    nodeShape node = rawShape o :=
  (mapShape_both cl tb).1 o node h

/-- Witness for C7 at a concrete three-level tree: subcommand-group
containing a subcommand containing a string scalar. -/
theorem mapOpt_preserves_shape_witness :
    mapOpt { usersCache := true, channelsCache := true, guild := true } none
        (.mk OptType_SUB_COMMAND_GROUP "grp" none
          (some [.mk OptType_SUB_COMMAND "sub" none
            (some [.mk OptType_STRING "arg" (some (.str "x")) none])]))
      = .ok (.subCommandGroup "grp" [.subCommand "sub"
          [.stringOpt "arg" (some (.str "x"))]])
    ∧ nodeShape (.subCommandGroup "grp" [.subCommand "sub"
          [.stringOpt "arg" (some (.str "x"))]])
        = rawShape (.mk OptType_SUB_COMMAND_GROUP "grp" none
          (some [.mk OptType_SUB_COMMAND "sub" none
            (some [.mk OptType_STRING "arg" (some (.str "x")) none])])) :=
  ⟨rfl, mapOpt_preserves_shape
    { usersCache := true, channelsCache := true, guild := true } none
    (.mk OptType_SUB_COMMAND_GROUP "grp" none
      (some [.mk OptType_SUB_COMMAND "sub" none
        (some [.mk OptType_STRING "arg" (some (.str "x")) none])]))
    (.subCommandGroup "grp" [.subCommand "sub"
      [.stringOpt "arg" (some (.str "x"))]]) rfl⟩

end DJS
